import Mathlib

/-!
# Mean-variance portfolio optimizer: verification of the core computations

Shallow embedding of the core calculations of `MinVarPort.py` over the real
numbers. The script's pure helpers `portfolio_ret`, `portfolio_sd` and
`find_tangency_portfolio` become Lean functions of the same names; the
top-level straight-line block computing the complete optimal portfolio
(`w_tangency_optimal`, `w1_optimal`, `w2_optimal`, `w_rf_optimal`,
`ret_optimal`, `sd_optimal`, `utility_optimal`) becomes the record-valued
function `computeOptimalPort`.

Floating-point numbers are abstracted as reals. `np.sqrt` of a negative
number yields NaN in NumPy; where that distinction matters we model it with
an `Option`-valued square root (`np_sqrt`, `none` standing for NaN), and
elsewhere we use `Real.sqrt` (the two agree whenever the radicand is
nonnegative, which is proved for all valid inputs). `-np.inf`, used as the
Sharpe value of a zero-risk grid sample, is modelled as `⊥` in `WithBot ℝ`.
-/

/-- `portfolio_ret(w1, r1, r2)` from the source:
`w1 * r1 + (1 - w1) * r2`. -/
def portfolio_ret (w1 r1 r2 : ℝ) : ℝ := w1 * r1 + (1 - w1) * r2

/-- The argument of the square root in `portfolio_sd`:
`w1**2 * sd1**2 + (1-w1)**2 * sd2**2 + 2 * rho * w1 * (1-w1) * sd1 * sd2`. -/
def radicand (w1 sd1 sd2 rho : ℝ) : ℝ :=
  w1 ^ 2 * sd1 ^ 2 + (1 - w1) ^ 2 * sd2 ^ 2 + 2 * rho * w1 * (1 - w1) * sd1 * sd2

/-- `portfolio_sd(w1, sd1, sd2, rho)` from the source:
`np.sqrt(radicand)`, real-valued abstraction (`Real.sqrt`). -/
noncomputable def portfolio_sd (w1 sd1 sd2 rho : ℝ) : ℝ :=
  Real.sqrt (radicand w1 sd1 sd2 rho)

/-- NaN-aware model of `np.sqrt`: NumPy returns NaN on a negative argument,
modelled here as `none`. -/
noncomputable def np_sqrt (x : ℝ) : Option ℝ :=
  if 0 ≤ x then some (Real.sqrt x) else none

/-- NaN-aware model of `portfolio_sd`: exactly the source expression
`np.sqrt(radicand)`, with NaN made visible as `none`. The source applies the
square root directly to the radicand, with no clamping. -/
noncomputable def portfolio_sd_nan (w1 sd1 sd2 rho : ℝ) : Option ℝ :=
  np_sqrt (radicand w1 sd1 sd2 rho)

/-- The variant described by the spec's words: clamp the radicand to `≥ 0`
before taking the square root. Stated only to be compared with the source's
`portfolio_sd_nan`; it is not what the source computes. -/
noncomputable def portfolio_sd_clamped (w1 sd1 sd2 rho : ℝ) : Option ℝ :=
  np_sqrt (max (radicand w1 sd1 sd2 rho) 0)

/-- The Sharpe value the grid-search loop stores for a weight `w`:
`(ret - rf) / sd` when `sd > 0`, and `-np.inf` (here `⊥`) otherwise. -/
noncomputable def sharpe (r1 r2 sd1 sd2 rho rf w : ℝ) : WithBot ℝ :=
  if 0 < portfolio_sd w sd1 sd2 rho then
    (((portfolio_ret w r1 r2 - rf) / portfolio_sd w sd1 sd2 rho : ℝ) : WithBot ℝ)
  else ⊥

/-- The `i`-th grid weight of `np.linspace(0, 1, 1000)`: `i / 999`
for `i = 0, …, 999`. -/
noncomputable def gridWeight (i : ℕ) : ℝ := (i : ℝ) / 999

/-- The Sharpe value at the `i`-th grid weight. -/
noncomputable def gridSharpe (r1 r2 sd1 sd2 rho rf : ℝ) (i : ℕ) : WithBot ℝ :=
  sharpe r1 r2 sd1 sd2 rho rf (gridWeight i)

/-- First index attaining the maximum of `f` over `0, 1, …, n`: the semantics
of `np.argmax` on the list `[f 0, …, f n]` (a later index replaces the
current best only when strictly greater). -/
def argmaxIdx {α : Type} [LinearOrder α] (f : ℕ → α) : ℕ → ℕ
  | 0 => 0
  | k + 1 => if f (argmaxIdx f k) < f (k + 1) then k + 1 else argmaxIdx f k

/-- `find_tangency_portfolio(r1, r2, sd1, sd2, rho, rf)` from the source:
grid search over `np.linspace(0, 1, 1000)`, Sharpe value `-np.inf` where the
standard deviation is not positive, and `np.argmax` over the stored list;
returns `(weights[max_idx], sharpe_ratios[max_idx])`. -/
noncomputable def find_tangency_portfolio (r1 r2 sd1 sd2 rho rf : ℝ) : ℝ × WithBot ℝ :=
  (gridWeight (argmaxIdx (gridSharpe r1 r2 sd1 sd2 rho rf) 999),
   gridSharpe r1 r2 sd1 sd2 rho rf (argmaxIdx (gridSharpe r1 r2 sd1 sd2 rho rf) 999))

/-- `w_tangency_optimal` from the source:
`(ret_tangency - r_free) / (gamma * sd_tangency**2)` when `sd_tangency > 0`,
`0` otherwise. -/
noncomputable def w_tangency_optimal (ret_t sd_t rf gamma : ℝ) : ℝ :=
  if 0 < sd_t then (ret_t - rf) / (gamma * sd_t ^ 2) else 0

/-- The complete optimal portfolio: the values the source computes as
`w_rf_optimal`, `w1_optimal`, `w2_optimal`, `ret_optimal`, `sd_optimal`,
`utility_optimal`. -/
structure CompletePort where
  w_rf : ℝ
  w1 : ℝ
  w2 : ℝ
  ret : ℝ
  sd : ℝ
  utility : ℝ

/-- The source's straight-line block computing the complete optimal
portfolio from the tangency portfolio `(w1_t, w2_t, ret_t, sd_t)`, the
risk-free rate `rf` and the risk aversion `gamma`:
`w1_optimal = w_tangency_optimal * w1_tangency`,
`w2_optimal = w_tangency_optimal * w2_tangency`,
`w_rf_optimal = 1 - w_tangency_optimal`,
`ret_optimal = r_free + w_tangency_optimal * (ret_tangency - r_free)`,
`sd_optimal = abs(w_tangency_optimal) * sd_tangency`,
`utility_optimal = ret_optimal - (gamma / 2) * sd_optimal**2`. -/
noncomputable def computeOptimalPort (w1_t w2_t ret_t sd_t rf gamma : ℝ) : CompletePort where
  w_rf := 1 - w_tangency_optimal ret_t sd_t rf gamma
  w1 := w_tangency_optimal ret_t sd_t rf gamma * w1_t
  w2 := w_tangency_optimal ret_t sd_t rf gamma * w2_t
  ret := rf + w_tangency_optimal ret_t sd_t rf gamma * (ret_t - rf)
  sd := |w_tangency_optimal ret_t sd_t rf gamma| * sd_t
  utility := (rf + w_tangency_optimal ret_t sd_t rf gamma * (ret_t - rf)) -
    gamma / 2 * (|w_tangency_optimal ret_t sd_t rf gamma| * sd_t) ^ 2

/-- Modelled from the spec: the spec's InvalidInput taxonomy (§7) — an input
set is valid when the correlation lies in `[-1, 1]`, both standard
deviations are nonnegative and `gamma > 0`. The source code contains no such
check; this predicate states what the spec says should be rejected. -/
def specValidInput (sd1 sd2 rho gamma : ℝ) : Prop :=
  -1 ≤ rho ∧ rho ≤ 1 ∧ 0 ≤ sd1 ∧ 0 ≤ sd2 ∧ 0 < gamma

/- ### Helper lemmas about the argmax recursion -/

lemma argmaxIdx_le {α : Type} [LinearOrder α] (f : ℕ → α) :
    ∀ n, argmaxIdx f n ≤ n := by
  intro n
  induction n with
  | zero => simp [argmaxIdx]
  | succ k ih =>
      rw [argmaxIdx]
      split
      · exact le_refl _
      · exact le_trans ih (Nat.le_succ k)

lemma le_argmaxIdx_val {α : Type} [LinearOrder α] (f : ℕ → α) :
    ∀ n, ∀ j ≤ n, f j ≤ f (argmaxIdx f n) := by
  intro n
  induction n with
  | zero =>
      intro j hj
      have : j = 0 := Nat.le_zero.mp hj
      simp [this, argmaxIdx]
  | succ k ih =>
      intro j hj
      rw [argmaxIdx]
      split
      · rename_i h
        rcases Nat.le_succ_iff_eq_or_le.mp hj with h1 | h1
        · exact le_of_eq (by rw [h1])
        · exact le_trans (ih j h1) (le_of_lt h)
      · rename_i h
        rcases Nat.le_succ_iff_eq_or_le.mp hj with h1 | h1
        · rw [h1]
          exact not_lt.mp h
        · exact ih j h1

lemma lt_argmaxIdx_val {α : Type} [LinearOrder α] (f : ℕ → α) :
    ∀ n, ∀ j < argmaxIdx f n, f j < f (argmaxIdx f n) := by
  intro n
  induction n with
  | zero =>
      intro j hj
      simp [argmaxIdx] at hj
  | succ k ih =>
      intro j hj
      rw [argmaxIdx] at hj ⊢
      split
      · rename_i h
        rw [if_pos h] at hj
        have hjk : j ≤ k := Nat.lt_succ_iff.mp hj
        exact lt_of_le_of_lt (le_argmaxIdx_val f k j hjk) h
      · rename_i h
        rw [if_neg h] at hj
        exact ih j hj

lemma gridWeight_nonneg (i : ℕ) : 0 ≤ gridWeight i := by
  unfold gridWeight
  positivity

lemma gridWeight_le_one {i : ℕ} (hi : i ≤ 999) : gridWeight i ≤ 1 := by
  unfold gridWeight
  rw [div_le_one (by norm_num)]
  exact_mod_cast hi

/- ### C7: boundary values of portfolio_sd -/

/-- C7: for stddevs ≥ 0 and correlation in [-1, 1], `portfolio_sd` at
weight 0 equals `sd2` and at weight 1 equals `sd1`. -/
theorem portfolio_sd_boundary (sd1 sd2 rho : ℝ) (h1 : 0 ≤ sd1) (h2 : 0 ≤ sd2)
    (hr1 : -1 ≤ rho) (hr2 : rho ≤ 1) :
    portfolio_sd 0 sd1 sd2 rho = sd2 ∧ portfolio_sd 1 sd1 sd2 rho = sd1 := by
  constructor
  · have h : radicand 0 sd1 sd2 rho = sd2 ^ 2 := by unfold radicand; ring
    rw [portfolio_sd, h, Real.sqrt_sq h2]
  · have h : radicand 1 sd1 sd2 rho = sd1 ^ 2 := by unfold radicand; ring
    rw [portfolio_sd, h, Real.sqrt_sq h1]

/-- Witness for C7 at sd1 = 3, sd2 = 5, rho = 0. -/
theorem portfolio_sd_boundary_w :
    ((0:ℝ) ≤ 3 ∧ (0:ℝ) ≤ 5 ∧ (-1:ℝ) ≤ 0 ∧ (0:ℝ) ≤ 1) ∧
    (portfolio_sd 0 3 5 0 = 5 ∧ portfolio_sd 1 3 5 0 = 3) :=
  ⟨by norm_num,
   portfolio_sd_boundary 3 5 0 (by norm_num) (by norm_num) (by norm_num) (by norm_num)⟩

/- ### C8: perfect-correlation closed form -/

/-- C8: for weight in [0, 1] and stddevs ≥ 0, at correlation 1 the portfolio
standard deviation is `|w * sd1 + (1 - w) * sd2|`. -/
theorem portfolio_sd_perfect_corr (w sd1 sd2 : ℝ) (hw0 : 0 ≤ w) (hw1 : w ≤ 1)
    (h1 : 0 ≤ sd1) (h2 : 0 ≤ sd2) :
    portfolio_sd w sd1 sd2 1 = |w * sd1 + (1 - w) * sd2| := by
  have h : radicand w sd1 sd2 1 = (w * sd1 + (1 - w) * sd2) ^ 2 := by
    unfold radicand; ring
  rw [portfolio_sd, h, Real.sqrt_sq_eq_abs]

/-- Witness for C8 at w = 1/2, sd1 = 2, sd2 = 4. -/
theorem portfolio_sd_perfect_corr_w :
    ((0:ℝ) ≤ 1/2 ∧ (1:ℝ)/2 ≤ 1 ∧ (0:ℝ) ≤ 2 ∧ (0:ℝ) ≤ 4) ∧
    portfolio_sd (1/2) 2 4 1 = |(1:ℝ)/2 * 2 + (1 - 1/2) * 4| :=
  ⟨by norm_num,
   portfolio_sd_perfect_corr (1/2) 2 4 (by norm_num) (by norm_num) (by norm_num) (by norm_num)⟩

/- ### C4: the source does not clamp the radicand -/

/-- C4 counterexample: the source's `portfolio_sd` (NaN-aware model) does not
clamp its radicand before the square root — at weight 1/2, unit stddevs and
correlation -2 the radicand is -1/2, the unclamped source yields NaN
(`none`) while the clamped variant the claim describes yields `some 0`. -/
theorem portfolio_sd_no_clamp_cex :
    portfolio_sd_nan (1/2) 1 1 (-2) = none ∧
    portfolio_sd_clamped (1/2) 1 1 (-2) = some 0 := by
  constructor
  · rw [portfolio_sd_nan, np_sqrt, if_neg]
    rw [radicand]
    norm_num
  · rw [portfolio_sd_clamped, np_sqrt, if_pos (le_max_right _ _)]
    have h : max (radicand (1/2) 1 1 (-2)) 0 = 0 := by
      rw [radicand]; norm_num
    rw [h, Real.sqrt_zero]

/-- C4 amended: `portfolio_sd` applies the square root to the raw radicand
with no clamping; nevertheless, for every weight in [0, 1], stddevs ≥ 0 and
correlation in [-1, 1] the radicand is nonnegative, so the square root's
argument is never negative and no NaN is produced (the NaN-aware model
returns `some` of the real value). -/
theorem portfolio_sd_radicand_nonneg (w sd1 sd2 rho : ℝ)
    (hw0 : 0 ≤ w) (hw1 : w ≤ 1) (h1 : 0 ≤ sd1) (h2 : 0 ≤ sd2)
    (hr1 : -1 ≤ rho) (hr2 : rho ≤ 1) :
    0 ≤ radicand w sd1 sd2 rho ∧
    portfolio_sd_nan w sd1 sd2 rho = some (portfolio_sd w sd1 sd2 rho) := by
  have key : 0 ≤ radicand w sd1 sd2 rho := by
    have hterm : 0 ≤ (1 + rho) * (w * ((1 - w) * (sd1 * sd2))) := by
      apply mul_nonneg (by linarith)
      exact mul_nonneg hw0 (mul_nonneg (by linarith) (mul_nonneg h1 h2))
    have expand : radicand w sd1 sd2 rho =
        (w * sd1 - (1 - w) * sd2) ^ 2 +
          2 * ((1 + rho) * (w * ((1 - w) * (sd1 * sd2)))) := by
      unfold radicand; ring
    rw [expand]
    have := sq_nonneg (w * sd1 - (1 - w) * sd2)
    linarith
  exact ⟨key, by rw [portfolio_sd_nan, np_sqrt, if_pos key, portfolio_sd]⟩

/-- Witness for the amended C4 at w = 1/2, sd1 = 1, sd2 = 1, rho = -1. -/
theorem portfolio_sd_radicand_nonneg_w :
    ((0:ℝ) ≤ 1/2 ∧ (1:ℝ)/2 ≤ 1 ∧ (0:ℝ) ≤ 1 ∧ (-1:ℝ) ≤ -1 ∧ (-1:ℝ) ≤ 1) ∧
    (0 ≤ radicand (1/2) 1 1 (-1) ∧
     portfolio_sd_nan (1/2) 1 1 (-1) = some (portfolio_sd (1/2) 1 1 (-1))) :=
  ⟨by norm_num,
   portfolio_sd_radicand_nonneg (1/2) 1 1 (-1) (by norm_num) (by norm_num)
     (by norm_num) (by norm_num) (by norm_num) (by norm_num)⟩

/- ### C2: the allocator computes exactly the source's formulas -/

/-- C2: for any tangency portfolio, risk-free rate and gamma > 0, the
complete portfolio is computed by exactly the source's formulas: the
tangency share is `(ret_t - rf) / (gamma * sd_t^2)` when `sd_t > 0` and `0`
otherwise, and the six outputs follow with no clamping of the share. -/
theorem computeOptimalPort_formulas (w1_t w2_t ret_t sd_t rf gamma : ℝ)
    (hg : 0 < gamma) :
    (0 < sd_t → w_tangency_optimal ret_t sd_t rf gamma = (ret_t - rf) / (gamma * sd_t ^ 2)) ∧
    (sd_t ≤ 0 → w_tangency_optimal ret_t sd_t rf gamma = 0) ∧
    computeOptimalPort w1_t w2_t ret_t sd_t rf gamma =
      { w_rf := 1 - w_tangency_optimal ret_t sd_t rf gamma
        w1 := w_tangency_optimal ret_t sd_t rf gamma * w1_t
        w2 := w_tangency_optimal ret_t sd_t rf gamma * w2_t
        ret := rf + w_tangency_optimal ret_t sd_t rf gamma * (ret_t - rf)
        sd := |w_tangency_optimal ret_t sd_t rf gamma| * sd_t
        utility := (rf + w_tangency_optimal ret_t sd_t rf gamma * (ret_t - rf)) -
          gamma / 2 * (|w_tangency_optimal ret_t sd_t rf gamma| * sd_t) ^ 2 } := by
  refine ⟨fun h => ?_, fun h => ?_, rfl⟩
  · rw [w_tangency_optimal, if_pos h]
  · rw [w_tangency_optimal, if_neg (not_lt.mpr h)]

/-- Witness for C2 at w1_t = 0, w2_t = 1, ret_t = 1, sd_t = 1, rf = 0,
gamma = 1. -/
theorem computeOptimalPort_formulas_w :
    (0:ℝ) < 1 ∧
    (((0:ℝ) < 1 → w_tangency_optimal 1 1 0 1 = ((1:ℝ) - 0) / (1 * 1 ^ 2)) ∧
     ((1:ℝ) ≤ 0 → w_tangency_optimal 1 1 0 1 = 0) ∧
     computeOptimalPort 0 1 1 1 0 1 =
       { w_rf := 1 - w_tangency_optimal 1 1 0 1
         w1 := w_tangency_optimal 1 1 0 1 * 0
         w2 := w_tangency_optimal 1 1 0 1 * 1
         ret := 0 + w_tangency_optimal 1 1 0 1 * (1 - 0)
         sd := |w_tangency_optimal 1 1 0 1| * 1
         utility := (0 + w_tangency_optimal 1 1 0 1 * (1 - 0)) -
           1 / 2 * (|w_tangency_optimal 1 1 0 1| * 1) ^ 2 }) :=
  ⟨by norm_num, computeOptimalPort_formulas 0 1 1 1 0 1 (by norm_num)⟩

/- ### C3: the three complete-portfolio weights sum to one -/

/-- C3: whenever the tangency weights sum to one, the complete portfolio's
three weights (risk-free, asset 1, asset 2) sum to one exactly, for any
gamma > 0. -/
theorem computeOptimalPort_weights_sum (w1_t w2_t ret_t sd_t rf gamma : ℝ)
    (hg : 0 < gamma) (hw : w1_t + w2_t = 1) :
    (computeOptimalPort w1_t w2_t ret_t sd_t rf gamma).w_rf +
      (computeOptimalPort w1_t w2_t ret_t sd_t rf gamma).w1 +
      (computeOptimalPort w1_t w2_t ret_t sd_t rf gamma).w2 = 1 := by
  simp only [computeOptimalPort]
  linear_combination w_tangency_optimal ret_t sd_t rf gamma * hw

/-- Witness for C3 at w1_t = 1/4, w2_t = 3/4, ret_t = 1, sd_t = 1, rf = 0,
gamma = 2. -/
theorem computeOptimalPort_weights_sum_w :
    ((0:ℝ) < 2 ∧ (1:ℝ)/4 + 3/4 = 1) ∧
    ((computeOptimalPort (1/4) (3/4) 1 1 0 2).w_rf +
      (computeOptimalPort (1/4) (3/4) 1 1 0 2).w1 +
      (computeOptimalPort (1/4) (3/4) 1 1 0 2).w2 = 1) :=
  ⟨by norm_num, computeOptimalPort_weights_sum (1/4) (3/4) 1 1 0 2 (by norm_num) (by norm_num)⟩

/- ### C5: the core performs no input validation -/

/-- C5 counterexample: at the invalid input gamma = -1 (invalid by the
spec's own taxonomy, here `specValidInput`), the core does not fail: it
silently computes a complete numeric portfolio — with tangency stats
`(w1_t, w2_t, ret_t, sd_t) = (1, 0, 1, 1)` and `rf = 0` the share is
`-1` and every output field is a definite real number. -/
theorem core_no_rejection_cex :
    ¬ specValidInput 1 1 0 (-1) ∧
    computeOptimalPort 1 0 1 1 0 (-1) =
      { w_rf := 2, w1 := -1, w2 := 0, ret := -1, sd := 1, utility := -1/2 } := by
  constructor
  · intro h
    have := h.2.2.2.2
    norm_num at this
  · have ha : w_tangency_optimal 1 1 0 (-1) = -1 := by
      rw [w_tangency_optimal, if_pos (by norm_num : (0:ℝ) < 1)]
      norm_num
    simp only [computeOptimalPort, ha, CompletePort.mk.injEq]
    norm_num

/-- C5 amended: the core applies no input validation and has no rejection
path. For an invalid risk aversion gamma < 0 (which makes any input set
invalid) and positive tangency risk, the allocator silently computes the
same unchecked formulas; and for every input whatsoever — correlation
outside [-1, 1] and negative stddevs included — the tangency grid search
runs to completion and returns a grid weight in [0, 1] together with its
stored Sharpe value instead of failing. -/
theorem core_no_input_validation (r1 r2 sd1 sd2 rho rf w1_t w2_t ret_t sd_t gamma : ℝ)
    (hg : gamma < 0) (hs : 0 < sd_t) :
    ¬ specValidInput sd1 sd2 rho gamma ∧
    computeOptimalPort w1_t w2_t ret_t sd_t rf gamma =
      { w_rf := 1 - (ret_t - rf) / (gamma * sd_t ^ 2)
        w1 := (ret_t - rf) / (gamma * sd_t ^ 2) * w1_t
        w2 := (ret_t - rf) / (gamma * sd_t ^ 2) * w2_t
        ret := rf + (ret_t - rf) / (gamma * sd_t ^ 2) * (ret_t - rf)
        sd := |(ret_t - rf) / (gamma * sd_t ^ 2)| * sd_t
        utility := (rf + (ret_t - rf) / (gamma * sd_t ^ 2) * (ret_t - rf)) -
          gamma / 2 * (|(ret_t - rf) / (gamma * sd_t ^ 2)| * sd_t) ^ 2 } ∧
    (∃ i : ℕ, i ≤ 999 ∧
      find_tangency_portfolio r1 r2 sd1 sd2 rho rf =
        (gridWeight i, gridSharpe r1 r2 sd1 sd2 rho rf i) ∧
      0 ≤ gridWeight i ∧ gridWeight i ≤ 1) := by
  refine ⟨?_, ?_, argmaxIdx (gridSharpe r1 r2 sd1 sd2 rho rf) 999,
    argmaxIdx_le _ 999, rfl, gridWeight_nonneg _, gridWeight_le_one (argmaxIdx_le _ 999)⟩
  · intro h
    exact absurd h.2.2.2.2 (not_lt.mpr (le_of_lt hg))
  · have ha : w_tangency_optimal ret_t sd_t rf gamma = (ret_t - rf) / (gamma * sd_t ^ 2) := by
      rw [w_tangency_optimal, if_pos hs]
    simp only [computeOptimalPort, ha]

/-- Witness for the amended C5 at gamma = -1, together with an invalid
correlation 2 and a negative stddev -1 fed to the grid search
(r1 = r2 = rf = 0, sd1 = -1, sd2 = 1, rho = 2), and tangency stats
(w1_t, w2_t, ret_t, sd_t) = (1, 0, 1, 1). -/
theorem core_no_input_validation_w :
    ((-1:ℝ) < 0 ∧ (0:ℝ) < 1) ∧
    (¬ specValidInput (-1) 1 2 (-1) ∧
     computeOptimalPort 1 0 1 1 0 (-1) =
       { w_rf := 1 - ((1:ℝ) - 0) / (-1 * 1 ^ 2)
         w1 := ((1:ℝ) - 0) / (-1 * 1 ^ 2) * 1
         w2 := ((1:ℝ) - 0) / (-1 * 1 ^ 2) * 0
         ret := 0 + ((1:ℝ) - 0) / (-1 * 1 ^ 2) * (1 - 0)
         sd := |((1:ℝ) - 0) / (-1 * 1 ^ 2)| * 1
         utility := (0 + ((1:ℝ) - 0) / (-1 * 1 ^ 2) * (1 - 0)) -
           -1 / 2 * (|((1:ℝ) - 0) / (-1 * 1 ^ 2)| * 1) ^ 2 } ∧
     (∃ i : ℕ, i ≤ 999 ∧
       find_tangency_portfolio 0 0 (-1) 1 2 0 =
         (gridWeight i, gridSharpe 0 0 (-1) 1 2 0 i) ∧
       0 ≤ gridWeight i ∧ gridWeight i ≤ 1)) :=
  ⟨by norm_num,
   core_no_input_validation 0 0 (-1) 1 2 0 1 0 1 1 (-1) (by norm_num) (by norm_num)⟩

/- ### C10: the reported return equals the weighted return of the parts -/

/-- C10: when the tangency expected return is `portfolio_ret` of the
tangency weight and the tangency weights sum to one, the complete
portfolio's reported return equals the direct weighted return of its three
components. -/
theorem computeOptimalPort_ret_weighted (w1_t w2_t sd_t r1 r2 rf gamma : ℝ)
    (hg : 0 < gamma) (hw : w1_t + w2_t = 1) :
    (computeOptimalPort w1_t w2_t (portfolio_ret w1_t r1 r2) sd_t rf gamma).ret =
      (computeOptimalPort w1_t w2_t (portfolio_ret w1_t r1 r2) sd_t rf gamma).w_rf * rf +
      (computeOptimalPort w1_t w2_t (portfolio_ret w1_t r1 r2) sd_t rf gamma).w1 * r1 +
      (computeOptimalPort w1_t w2_t (portfolio_ret w1_t r1 r2) sd_t rf gamma).w2 * r2 := by
  have h2 : w2_t = 1 - w1_t := by linarith
  subst h2
  simp only [computeOptimalPort, portfolio_ret]
  ring

/-- Witness for C10 at w1_t = 1/2, w2_t = 1/2, sd_t = 1, r1 = 1, r2 = 3,
rf = 0, gamma = 1. -/
theorem computeOptimalPort_ret_weighted_w :
    ((0:ℝ) < 1 ∧ (1:ℝ)/2 + 1/2 = 1) ∧
    ((computeOptimalPort (1/2) (1/2) (portfolio_ret (1/2) 1 3) 1 0 1).ret =
      (computeOptimalPort (1/2) (1/2) (portfolio_ret (1/2) 1 3) 1 0 1).w_rf * 0 +
      (computeOptimalPort (1/2) (1/2) (portfolio_ret (1/2) 1 3) 1 0 1).w1 * 1 +
      (computeOptimalPort (1/2) (1/2) (portfolio_ret (1/2) 1 3) 1 0 1).w2 * 3) :=
  ⟨by norm_num,
   computeOptimalPort_ret_weighted (1/2) (1/2) 1 1 3 0 1 (by norm_num) (by norm_num)⟩

/- ### C9: the tangency share maximizes mean-variance utility -/

/-- C9: for gamma > 0 and positive tangency risk, the reported utility is at
least the mean-variance utility `rf + a * (ret_t - rf) - gamma/2 * a^2 * sd_t^2`
of every other allocation fraction `a` of the tangency portfolio. -/
theorem computeOptimalPort_utility_max (w1_t w2_t ret_t sd_t rf gamma : ℝ)
    (hg : 0 < gamma) (hs : 0 < sd_t) :
    ∀ a : ℝ, rf + a * (ret_t - rf) - gamma / 2 * a ^ 2 * sd_t ^ 2 ≤
      (computeOptimalPort w1_t w2_t ret_t sd_t rf gamma).utility := by
  intro a
  have hv : (0:ℝ) < gamma * sd_t ^ 2 := by positivity
  have ha : w_tangency_optimal ret_t sd_t rf gamma = (ret_t - rf) / (gamma * sd_t ^ 2) := by
    rw [w_tangency_optimal, if_pos hs]
  simp only [computeOptimalPort, ha]
  rw [mul_pow, sq_abs]
  set c := (ret_t - rf) / (gamma * sd_t ^ 2) with hc
  have hmul : c * (gamma * sd_t ^ 2) = ret_t - rf := div_mul_cancel₀ _ (ne_of_gt hv)
  rw [← hmul]
  nlinarith [mul_nonneg (le_of_lt hv) (sq_nonneg (a - c))]

/-- Witness for C9 at w1_t = 1, w2_t = 0, ret_t = 1, sd_t = 1, rf = 0,
gamma = 1. -/
theorem computeOptimalPort_utility_max_w :
    ((0:ℝ) < 1 ∧ (0:ℝ) < 1) ∧
    (∀ a : ℝ, 0 + a * ((1:ℝ) - 0) - 1 / 2 * a ^ 2 * 1 ^ 2 ≤
      (computeOptimalPort 1 0 1 1 0 1).utility) :=
  ⟨by norm_num, computeOptimalPort_utility_max 1 0 1 1 0 1 (by norm_num) (by norm_num)⟩

/- ### C1: the grid search returns the stable argmax over the 1000 samples -/

/-- C1: `find_tangency_portfolio` returns the pair (weight, Sharpe value) of
a grid index `i ≤ 999` of `np.linspace(0, 1, 1000)` (weight `i / 999`, so
the returned weight lies in `[0, 1]`); at every sample with positive risk
the stored Sharpe value is `(portfolio_ret - rf) / portfolio_sd`; the
returned sample's Sharpe value is ≥ that of every grid sample, and every
earlier index is strictly smaller (first occurrence wins). -/
theorem find_tangency_portfolio_grid_argmax (r1 r2 sd1 sd2 rho rf : ℝ) :
    ∃ i : ℕ, i ≤ 999 ∧
      (find_tangency_portfolio r1 r2 sd1 sd2 rho rf).1 = gridWeight i ∧
      (find_tangency_portfolio r1 r2 sd1 sd2 rho rf).2 = gridSharpe r1 r2 sd1 sd2 rho rf i ∧
      0 ≤ (find_tangency_portfolio r1 r2 sd1 sd2 rho rf).1 ∧
      (find_tangency_portfolio r1 r2 sd1 sd2 rho rf).1 ≤ 1 ∧
      (∀ w : ℝ, 0 < portfolio_sd w sd1 sd2 rho →
        sharpe r1 r2 sd1 sd2 rho rf w =
          (((portfolio_ret w r1 r2 - rf) / portfolio_sd w sd1 sd2 rho : ℝ) : WithBot ℝ)) ∧
      (∀ j, j ≤ 999 →
        gridSharpe r1 r2 sd1 sd2 rho rf j ≤ gridSharpe r1 r2 sd1 sd2 rho rf i) ∧
      (∀ j, j < i →
        gridSharpe r1 r2 sd1 sd2 rho rf j < gridSharpe r1 r2 sd1 sd2 rho rf i) := by
  refine ⟨argmaxIdx (gridSharpe r1 r2 sd1 sd2 rho rf) 999,
    argmaxIdx_le _ 999, rfl, rfl, gridWeight_nonneg _,
    gridWeight_le_one (argmaxIdx_le _ 999), ?_,
    le_argmaxIdx_val _ 999, lt_argmaxIdx_val _ 999⟩
  intro w hw
  rw [sharpe, if_pos hw]

/- ### C6: zero-risk samples get Sharpe value -inf and are never selected -/

/-- C6: every grid sample with portfolio standard deviation 0 is stored as
`-np.inf` (`⊥`) instead of dividing by zero; and as soon as some grid sample
has a finite Sharpe value, the returned maximizer has a finite Sharpe value
and strictly positive standard deviation, so a zero-risk sample is never
returned. -/
theorem find_tangency_portfolio_zero_sd_guard (r1 r2 sd1 sd2 rho rf : ℝ)
    (h : ∃ j, j ≤ 999 ∧ gridSharpe r1 r2 sd1 sd2 rho rf j ≠ ⊥) :
    (∀ w : ℝ, portfolio_sd w sd1 sd2 rho = 0 → sharpe r1 r2 sd1 sd2 rho rf w = ⊥) ∧
    (find_tangency_portfolio r1 r2 sd1 sd2 rho rf).2 ≠ ⊥ ∧
    0 < portfolio_sd (find_tangency_portfolio r1 r2 sd1 sd2 rho rf).1 sd1 sd2 rho := by
  obtain ⟨j, hj, hne⟩ := h
  have hle : gridSharpe r1 r2 sd1 sd2 rho rf j ≤
      gridSharpe r1 r2 sd1 sd2 rho rf (argmaxIdx (gridSharpe r1 r2 sd1 sd2 rho rf) 999) :=
    le_argmaxIdx_val _ 999 j hj
  have hmax : gridSharpe r1 r2 sd1 sd2 rho rf
      (argmaxIdx (gridSharpe r1 r2 sd1 sd2 rho rf) 999) ≠ ⊥ := by
    intro hbot
    rw [hbot] at hle
    exact hne (le_bot_iff.mp hle)
  refine ⟨?_, hmax, ?_⟩
  · intro w hw
    rw [sharpe, hw, if_neg (lt_irrefl 0)]
  · by_contra hpos
    apply hmax
    simp only [find_tangency_portfolio] at hpos
    rw [gridSharpe, sharpe, if_neg hpos]

/-- Witness for C6 at r1 = r2 = rf = 0, sd1 = sd2 = 1, rho = 0: grid sample
0 has weight 0, standard deviation 1 and a finite Sharpe value. -/
theorem find_tangency_portfolio_zero_sd_guard_w :
    (∃ j, j ≤ 999 ∧ gridSharpe 0 0 1 1 0 0 j ≠ ⊥) ∧
    ((∀ w : ℝ, portfolio_sd w 1 1 0 = 0 → sharpe 0 0 1 1 0 0 w = ⊥) ∧
     (find_tangency_portfolio 0 0 1 1 0 0).2 ≠ ⊥ ∧
     0 < portfolio_sd (find_tangency_portfolio 0 0 1 1 0 0).1 1 1 0) := by
  have h0 : gridSharpe 0 0 1 1 0 0 0 ≠ ⊥ := by
    have hrad : radicand (gridWeight 0) 1 1 0 = 1 := by
      rw [gridWeight, radicand]
      norm_num
    have hsd : portfolio_sd (gridWeight 0) 1 1 0 = 1 := by
      rw [portfolio_sd, hrad, Real.sqrt_one]
    rw [gridSharpe, sharpe, if_pos (by rw [hsd]; norm_num)]
    exact WithBot.coe_ne_bot
  exact ⟨⟨0, by norm_num, h0⟩,
    find_tangency_portfolio_zero_sd_guard 0 0 1 1 0 0 ⟨0, by norm_num, h0⟩⟩
